import Mathlib

/-!
Verification development for the storeHelper code generators.

The definitions below are shallow embeddings of the JavaScript sources:
  * helperF.js            — naming utilities (toCamel, toCamelCase, capitalize, writeFile)
  * generateCollectionActionModule.js — action descriptor table and the
    per-collection module composer
  * generateActionFiles.js — the alternative per-collection generator
  * generateIndexFile.js  — index composer: import lines, auth flows, fetchUser
  * index.js              — interactive driver: collection parsing, auth classifier

JS strings are modelled as Lean `String`; machine details (file system,
readline) are modelled as explicit data (paths and contents returned in
`Except`, ambient process state passed in a `GenEnv`). Characters in the
generated-template strings that are JS braces, quotes or backticks are
written with `\x7b`, `\x7d`, `\x27`, `\x60` escapes.
-/

/-- JS whitespace test (`\s` in the regexes / `String.prototype.trim`),
restricted to the characters `Char.isWhitespace` covers; all inputs this
development reasons about are ASCII. -/
def jsWhitespace (c : Char) : Bool := c.isWhitespace

/-- `str.trim()`: drop whitespace from both ends. -/
def jsTrim (s : String) : String :=
  String.mk (((s.data.dropWhile jsWhitespace).reverse.dropWhile jsWhitespace).reverse)

/-- `str.toLowerCase()` (ASCII). -/
def jsToLower (s : String) : String := String.mk (s.data.map Char.toLower)

/-- helperF.js `capitalize`: `str.charAt(0).toUpperCase() + str.slice(1)`.
On the empty string, `charAt(0)` is `""` and `slice(1)` is `""`, so the
result is `""` (no exception). -/
def capitalize (s : String) : String :=
  match s.data with
  | [] => ""
  | c :: cs => String.mk (c.toUpper :: cs)

/-- Separator class of the split regex `[-\s_]+` in `toCamelCase`. -/
def sepChar (c : Char) : Bool := c = '-' || c = '_' || jsWhitespace c

/-- JS `str.split(/[-\s_]+/)` on the character list: split at maximal runs
of separators; a run at the very start or very end contributes an empty
piece, exactly as `String.prototype.split` with a `+`-quantified regex. -/
def jsSplitSep : List Char → List (List Char)
  | [] => [[]]
  | c :: cs =>
    if sepChar c then
      match cs with
      | c2 :: _ => if sepChar c2 then jsSplitSep cs else [] :: jsSplitSep cs
      | [] => [] :: jsSplitSep cs
    else
      match jsSplitSep cs with
      | [] => [[c]]
      | w :: ws => (c :: w) :: ws

/-- `w.charAt(0).toUpperCase() + w.slice(1)` on a word given as a char list. -/
def capFirstChars : List Char → List Char
  | [] => []
  | c :: cs => c.toUpper :: cs

/-- helperF.js `toCamelCase`:
`str.trim().toLowerCase().split(/[-\s_]+/).map((w, i) => i === 0 ? w : w.charAt(0).toUpperCase() + w.slice(1)).join('')`. -/
def toCamelCase (s : String) : String :=
  match jsSplitSep ((jsTrim s).data.map Char.toLower) with
  | [] => ""
  | w :: ws => String.mk (w ++ (ws.map capFirstChars).flatten)

/-- helperF.js `toCamel`: a global replace of the regex "hyphen followed by
a capture group `([a-z])`" with the captured letter uppercased; the regex
scan is left-to-right and non-overlapping. -/
def toCamelChars : List Char → List Char
  | [] => []
  | '-' :: c :: rest =>
    if c.isLower then c.toUpper :: toCamelChars rest
    else '-' :: toCamelChars (c :: rest)
  | c :: rest => c :: toCamelChars rest

/-- helperF.js `toCamel` on `String`. -/
def toCamel (s : String) : String := String.mk (toCamelChars s.data)

/-- Number of (possibly overlapping) occurrences of `pat` at positions of
`l`; for the member-name and documentation patterns counted in this
development no self-overlap is possible, so this is the plain occurrence
count. -/
def countSub (pat : List Char) : List Char → Nat
  | [] => 0
  | c :: cs => (if pat.isPrefixOf (c :: cs) then 1 else 0) + countSub pat cs

/-- Occurrence count of a pattern string inside a string. -/
def countOccurrences (s pat : String) : Nat := countSub pat.data s.data

/-- Split a character list at every occurrence of a single separator
character, keeping empty pieces — JS `str.split(',')` semantics. -/
def splitOnChar (sep : Char) : List Char → List (List Char)
  | [] => [[]]
  | c :: cs =>
    if c = sep then [] :: splitOnChar sep cs
    else
      match splitOnChar sep cs with
      | [] => [[c]]
      | w :: ws => (c :: w) :: ws

/-- `str.split(sep)` on strings (single-character separator). -/
def jsSplitOn (sep : Char) (s : String) : List String :=
  (splitOnChar sep s.data).map String.mk

/-- Left-to-right, non-overlapping global replacement of a non-empty
pattern, with explicit fuel (the input length) so the recursion is
structural. When the pattern matches at the head, the match is consumed
and scanning resumes after it, as in JS global `String.prototype.replace`. -/
def replaceFuel (pat rep : List Char) : Nat → List Char → List Char
  | _, [] => []
  | 0, l => l
  | fuel + 1, c :: cs =>
    if pat.isPrefixOf (c :: cs) && !pat.isEmpty then
      rep ++ replaceFuel pat rep fuel (cs.drop (pat.length - 1))
    else
      c :: replaceFuel pat rep fuel cs

/-- Global replacement on strings (JS `str.replace(/pat/g, rep)` for a
literal pattern). -/
def jsReplaceAll (s pat rep : String) : String :=
  String.mk (replaceFuel pat.data rep.data s.data.length s.data)

/-- Character class `[a-z0-9_-]` under the `/i` flag:
letters (either case), digits, underscore, hyphen. -/
def nameBodyChar (c : Char) : Bool := c.isAlpha || c.isDigit || c = '_' || c = '-'

/-- generateCollectionActionModule.js line 169: the validation regex
`/^[a-z][a-z0-9_-]{0,63}$/i` — an ASCII letter followed by at most 63
characters from `[A-Za-z0-9_-]`. -/
def codeNameOk (s : String) : Bool :=
  match s.data with
  | [] => false
  | c :: cs => c.isAlpha && decide (cs.length ≤ 63) && cs.all nameBodyChar

/-- The spec's identifier pattern `^[A-Za-z][A-Za-z0-9_-]*$` (stated for
comparison with `codeNameOk`; the spec text imposes no length bound). -/
def specNameOk (s : String) : Bool :=
  match s.data with
  | [] => false
  | c :: cs => c.isAlpha && cs.all nameBodyChar

/-- index.js `isAuthCollection`: membership of the lowercased name in the
fixed auth-entity noun list. -/
def isAuthCollection (collectionName : String) : Bool :=
  ["users", "user", "customer", "client", "clients", "customers", "student",
   "students", "admins", "admin", "accounts", "account"].contains (jsToLower collectionName)

/-- index.js line 42: `collectionsInput.split(',').map(c => toCamelCase(c).trim()).filter(Boolean)` —
the driver normalizes every entered collection name with `toCamelCase`
before any generator sees it. -/
def driverParseCollections (input : String) : List String :=
  ((jsSplitOn ',' input).map (fun c => jsTrim (toCamelCase c))).filter (fun s => s ≠ "")

/-- One entry of the action descriptor table: the underlying capability
key, the exported-member-name deriver, and the doc-comment deriver. -/
structure ActionDescriptor where
  key : String
  exportName : String → String
  jsdoc : String → String

/-- generateCollectionActionModule.js lines 34–165: the fixed, ordered
action descriptor table (13 entries). -/
def actionDescriptors : List ActionDescriptor :=
  [ { key := "fetchInitialPage",
      exportName := fun suffix => "fetchInitialPage" ++ suffix,
      jsdoc := fun name => "/**\n * Fetches the first page of " ++ name ++ " with optional filters and sorting.\n * @function\n * @param \x7b...any\x7d args - Arguments forwarded to fetchInitialPage\n * @returns \x7bPromise<void>\x7d\n */" },
    { key := "fetchNextPage",
      exportName := fun suffix => "fetchNextPage" ++ suffix,
      jsdoc := fun name => "/**\n * Fetches the next page of " ++ name ++ " (pagination).\n * @function\n * @param \x7b...any\x7d args - Arguments forwarded to fetchNextPage\n * @returns \x7bPromise<void>\x7d\n */" },
    { key := "applyFilters",
      exportName := fun suffix => "apply" ++ suffix ++ "Filters",
      jsdoc := fun name => "/**\n * Applies filters to the " ++ name ++ " collection query.\n * @function\n * @param \x7b...any\x7d args - Arguments forwarded to applyFilters\n * @returns \x7bPromise<void>\x7d\n */" },
    { key := "changeSorting",
      exportName := fun suffix => "change" ++ suffix ++ "Sorting",
      jsdoc := fun name => "/**\n * Changes the sorting of the " ++ name ++ " collection.\n * @function\n * @param \x7b...any\x7d args - Arguments forwarded to changeSorting\n * @returns \x7bPromise<void>\x7d\n */" },
    { key := "add",
      exportName := fun suffix => "add" ++ suffix,
      jsdoc := fun name => "/**\n * Adds a new " ++ name ++ " document to the collection.\n * @function\n * @param \x7b...any\x7d args - Arguments forwarded to add\n * @returns \x7bPromise<void>\x7d\n */" },
    { key := "get",
      exportName := fun suffix => "get" ++ suffix,
      jsdoc := fun _ => "/**\n * Gets a document from the collection.\n * @function\n * @param \x7b...any\x7d args - Arguments forwarded to get\n * @returns \x7bPromise<void>\x7d\n */" },
    { key := "getWhere",
      exportName := fun suffix => "getWhere" ++ suffix,
      jsdoc := fun _ => "/**\n * Gets a document based on the condition from the collection, e.g clientId = \x27xxx\x27.\n * @function\n * @param \x7b...any\x7d args - Arguments forwarded to get\n * @returns \x7bPromise<void>\x7d\n */" },
    { key := "update",
      exportName := fun suffix => "update" ++ suffix,
      jsdoc := fun name => "/**\n * Updates an existing " ++ name ++ " document.\n * @function\n * @param \x7b...any\x7d args - Arguments forwarded to update\n * @returns \x7bPromise<void>\x7d\n */" },
    { key := "search",
      exportName := fun suffix => "search" ++ suffix,
      jsdoc := fun name => "/**\n * Searches " ++ name ++ " documents by a term and optional field.\n * @function\n * @param \x7b...any\x7d args - Arguments forwarded to search\n * @returns \x7bPromise<void>\x7d\n */" },
    { key := "clearSearch",
      exportName := fun suffix => "clear" ++ suffix ++ "Search",
      jsdoc := fun name => "/**\n * Clears the current " ++ name ++ " search results.\n * @function\n * @param \x7b...any\x7d args - Arguments forwarded to clearSearch\n * @returns \x7bPromise<void>\x7d\n */" },
    { key := "remove",
      exportName := fun suffix => "delete" ++ suffix,
      jsdoc := fun name => "/**\n * Deletes a " ++ name ++ " document by ID.\n * @function\n * @param \x7b...any\x7d args - Arguments forwarded to remove\n * @returns \x7bPromise<void>\x7d\n */" },
    { key := "assignRoles",
      exportName := fun suffix => "assign" ++ suffix ++ "Roles",
      jsdoc := fun name => "/**\n * Assigns roles to a " ++ jsToLower name ++ " user.\n * @function\n * @param \x7b...any\x7d args - Arguments forwarded to assignRoles\n * @returns \x7bPromise<void>\x7d\n */" },
    { key := "revokeRoles",
      exportName := fun suffix => "revoke" ++ suffix ++ "Roles",
      jsdoc := fun name => "/**\n * Revokes roles from a " ++ jsToLower name ++ " user.\n * @function\n * @param \x7b...any\x7d args - Arguments forwarded to revokeRoles\n * @returns \x7bPromise<void>\x7d\n */" } ]

/-- The member names the composer derives for a given suffix, in table
order (the `forEach` over `actionDescriptors` evaluates `exportName(suffix)`
for every descriptor, with no skipping). -/
def emittedMemberNames (suffix : String) : List String :=
  actionDescriptors.map (fun d => d.exportName suffix)

/-- generateCollectionActionModule.js line 173: `const suffix = capitalize(collectionName);`. -/
def composerSuffix (collectionName : String) : String := capitalize collectionName

/-- generateCollectionActionModule.js lines 204–210: the member block the
`forEach` body appends for one descriptor — the descriptor's doc comment
is derived from the SUFFIX (`jsdoc(suffix)`, re-indented by replacing every
newline with newline + four spaces), then the wrapper forwarding to
`getActions().<key>`. -/
def memberBlock (suffix : String) (d : ActionDescriptor) : String :=
  "    " ++ jsReplaceAll (d.jsdoc suffix) "\n" "\n    " ++ "\n" ++
  "    " ++ d.exportName suffix ++ "(...args) \x7b\n" ++
  "      return getActions()." ++ d.key ++ "(...args);\n" ++
  "    \x7d,\n\n"

/-- generateCollectionActionModule.js lines 182–202: module header up to
and including `return {`. -/
def moduleHeader (collectionName suffix : String) : String :=
  "import \x7b useFirestoreCollectionActions \x7d from \x27../useFirestoreCollectionActions.js\x27;\n\n" ++
  "/**\n" ++
  " * Generates a set of Firestore actions scoped to the \x60" ++ collectionName ++ "\x60 collection.\n" ++
  " *\n" ++
  " * @param \x7bObject\x7d state - Pinia store state\n" ++
  " * @returns \x7bObject\x7d " ++ collectionName ++ "Actions - A set of methods to interact with the " ++ collectionName ++ " Firestore collection\n" ++
  " */\n" ++
  "export function use" ++ suffix ++ "Actions(state) \x7b\n" ++
  "  let actionsInstance = null;\n\n" ++
  "  /**\n" ++
  "   * Lazily initializes and retrieves the " ++ collectionName ++ " collection actions.\n" ++
  "   * @returns \x7bObject\x7d Firestore collection methods for \x27" ++ collectionName ++ "\x27\n" ++
  "   */\n" ++
  "  const getActions = () => \x7b\n" ++
  "    if (!actionsInstance) \x7b\n" ++
  "      actionsInstance = useFirestoreCollectionActions(\x27" ++ collectionName ++ "\x27, state);\n" ++
  "    \x7d\n" ++
  "    return actionsInstance;\n" ++
  "  \x7d;\n\n" ++
  "  return \x7b\n"

/-- generateCollectionActionModule.js lines 212–213: `  };` and `}`. -/
def moduleFooter : String := "  \x7d;\n\x7d\n"

/-- The full in-memory module text the composer builds for a collection
name (lines 182–213): header, one member block per descriptor in table
order (all 13 — the `forEach` has no conditional), footer. -/
def collectionModuleContent (collectionName : String) : String :=
  moduleHeader collectionName (composerSuffix collectionName) ++
  String.join (actionDescriptors.map (memberBlock (composerSuffix collectionName))) ++
  moduleFooter

/-- helperF.js `writeFile`: the content flushed to disk is
`content.trim() + '\n'`. -/
def writtenFileContent (content : String) : String := jsTrim content ++ "\n"

/-- Ambient process state available to every generator in the run. The
only generator that consults it is generateDocumentation.js (line 9 reads
the current date and line 121 interpolates it); it is carried here already
rendered as the locale date string. -/
structure GenEnv where
  dateString : String

/-- generateDocumentation.js line 121: the timestamped footer line of
STORE_GUIDE.md — the one output that depends on `GenEnv`. -/
def storeGuideGeneratedLine (env : GenEnv) : String :=
  "> *Generated on " ++ env.dateString ++ "*"

/-- generateCollectionActionModule.js lines 167–220, as a function of the
ambient state and its two inputs. Validation (line 169) happens first;
on failure the thrown error is rewrapped by the catch (line 218) and no
file content is produced. On success the result is the written file: the
path `<baseDir>/actions/<collectionName>.js` and the flushed content. The
mkdir of the actions directory (lines 176–178) is a directory-only effect
and writes no file. The body never reads the ambient state. -/
def generateCollectionActionModuleAt (_env : GenEnv) (baseDir collectionName : String) :
    Except String (String × String) :=
  if codeNameOk collectionName then
    .ok (baseDir ++ "/actions/" ++ collectionName ++ ".js",
         writtenFileContent (collectionModuleContent collectionName))
  else
    .error ("[Action Generator] " ++ collectionName ++ " failed: " ++
            "Invalid Firestore collection name: " ++ collectionName)

/-- A fixed ambient state for concrete evaluations. -/
def someEnv : GenEnv := { dateString := "January 1, 2026 at 12:00 PM" }

/-- generateIndexFile.js lines 19–21: the import line the index composer
emits for one collection. -/
def actionImportLine (col : String) : String :=
  "import \x7b useFirestoreCollectionActions as use" ++ capitalize col ++
  "Actions \x7d from \x27./actions/" ++ col ++ ".js\x27;"

/-- generateCollectionActionModule.js line 190: the name of the function
the composed per-collection module actually exports. -/
def moduleExportedFunctionName (collectionName : String) : String :=
  "use" ++ composerSuffix collectionName ++ "Actions"

/-- The imported-export specifier of an emitted import line: the token
after `import \x7b` (the name before `as`). -/
def importedSpecifier (line : String) : Option String := (jsSplitOn ' ' line).get? 2


/-- A JavaScript runtime value as the generated store manipulates them:
strings, booleans, null, and plain objects (ordered field lists). -/
inductive JsValue where
  | str : String → JsValue
  | boolean : Bool → JsValue
  | nul : JsValue
  | obj : List (String × JsValue) → JsValue

/-- Property lookup in an object field list (first binding wins; the
lists built below have no duplicate keys). -/
def jsLookup : List (String × JsValue) → String → Option JsValue
  | [], _ => none
  | (k, v) :: rest, key => if k = key then some v else jsLookup rest key

/-- JS object spread `{...a, ...b}`: every key of `a` in order (value
overridden by `b` on collision), then the keys only `b` has. -/
def jsSpread (a b : List (String × JsValue)) : List (String × JsValue) :=
  a.map (fun kv => (kv.1, (jsLookup b kv.1).getD kv.2)) ++
  b.filter (fun kv => (jsLookup a kv.1).isNone)

/-- JS truthiness of a (possibly absent) value, for the guards the
generated flows use (`profileData.displayName || ...`, `user.uid && ...`). -/
def jsTruthy : Option JsValue → Bool
  | none => false
  | some .nul => false
  | some (.str s) => s != ""
  | some (.boolean b) => b
  | some (.obj _) => true

/-- The Firebase Auth user object fields the generated flows read. -/
structure FbUser where
  uid : String
  email : String
  emailVerified : Bool
  displayName : String
  photoURL : String
  creationTime : String
  lastSignInTime : String

/-- The user-object literal built in the generated `login` (lines 88–98)
and `fetchUser` (lines 442–451 / 457–467): the seven Auth fields with the
nested `metadata` object. -/
def fbUserFields (fu : FbUser) : List (String × JsValue) :=
  [("uid", .str fu.uid),
   ("email", .str fu.email),
   ("emailVerified", .boolean fu.emailVerified),
   ("displayName", .str fu.displayName),
   ("photoURL", .str fu.photoURL),
   ("metadata", .obj [("creationTime", .str fu.creationTime),
                      ("lastSignInTime", .str fu.lastSignInTime)])]

/-- The shared reactive store state the generated flows read and write
(state.js plus the auth-only refs). `emailVerificationSent` is referenced
by the generated signUp/logout/resendVerificationEmail even though
state.js never declares it; it is modelled as a field so those writes are
expressible. -/
structure StoreState where
  currentUser : Option (List (String × JsValue))
  loading : Bool
  error : Option String
  emailVerificationSent : Bool
  authInitialized : Bool

/-- A thrown Firebase/JS error as the generated catch blocks see it:
`error.code` (absent on plain `Error`s) and `error.message`. -/
structure JsError where
  code : Option String
  message : String

/-- JS `a || 'fallback'` on the message string (empty string is falsy). -/
def jsOrDefault (msg fallback : String) : String := if msg = "" then fallback else msg

/-- The first two statements of every generated auth flow except
`fetchUser`: `state.loading.value = true; state.error.value = null;`. -/
def authFlowEntry (s : StoreState) : StoreState :=
  { s with loading := true, error := none }

/-- The `finally` block every generated auth flow except `fetchUser` ends
with: `state.loading.value = false;`, run on success and failure alike. -/
def flowFinally {α : Type} (p : StoreState × α) : StoreState × α :=
  ({ p.1 with loading := false }, p.2)

/-- Collaborator outcomes one `login(email, password)` invocation can
observe (generateIndexFile.js lines 81–143). -/
structure LoginEnv where
  persistenceResult : Except JsError Unit
  signInResult : Except JsError FbUser
  profileResult : Except JsError (Option (List (String × JsValue)))

/-- The generated login's error classification table (lines 117–136). -/
def classifyLoginError (e : JsError) : String :=
  match e.code with
  | some "auth/user-not-found" => "No user found with this email."
  | some "auth/wrong-password" => "Incorrect password."
  | some "auth/invalid-credential" => "Invalid email or password."
  | some "auth/too-many-requests" => "Too many failed login attempts. Account temporarily locked."
  | some "auth/user-disabled" => "This account has been disabled."
  | _ => jsOrDefault e.message "An unknown authentication error occurred."

/-- Generated `login` (lines 81–143): entry sets loading/clears error;
sign-in success builds the user object, optionally merges the Firestore
profile (profile-fetch failure is swallowed with a warning), stores
`currentUser`; failure classifies, stores the message in `error`, and
re-throws `{code, message}`; the `finally` clears `loading` on all paths. -/
def login (env : LoginEnv) (s : StoreState) :
    StoreState × Except JsError (List (String × JsValue)) :=
  flowFinally (
    let s := authFlowEntry s
    match env.persistenceResult with
    | .error e =>
      let msg := classifyLoginError e
      ({ s with error := some msg }, .error ⟨e.code, msg⟩)
    | .ok _ =>
      match env.signInResult with
      | .error e =>
        let msg := classifyLoginError e
        ({ s with error := some msg }, .error ⟨e.code, msg⟩)
      | .ok fu =>
        let user0 := fbUserFields fu
        let user :=
          if fu.uid != "" then
            match env.profileResult with
            | .ok (some p) => jsSpread user0 p
            | .ok none => user0
            | .error _ => user0
          else user0
        ({ s with currentUser := some user }, .ok user))

/-- Collaborator outcomes one `signUp` invocation can observe
(lines 169–235). -/
structure SignUpEnv where
  createResult : Except JsError FbUser
  updateAuthProfileResult : Except JsError Unit
  addProfileResult : Except JsError Unit
  sendVerificationResult : Except JsError Unit
  profileData : List (String × JsValue)
  sendVerification : Bool

/-- The generated signUp's error classification table (lines 212–228). -/
def classifySignUpError (e : JsError) : String :=
  match e.code with
  | some "auth/email-already-in-use" => "This email address is already registered."
  | some "auth/invalid-email" => "The email address is not valid."
  | some "auth/weak-password" => "The password is too weak. Please choose a stronger password."
  | some "auth/operation-not-allowed" => "Email/password accounts are not enabled. Please contact support."
  | _ => jsOrDefault e.message "An unknown registration error occurred."

/-- The `userFirestoreData` literal of signUp (lines 186–195): Auth fields
with `||` fallbacks, then `...profileData`. -/
def signUpProfileDoc (fu : FbUser) (profileData : List (String × JsValue)) :
    List (String × JsValue) :=
  jsSpread
    [("uid", .str fu.uid),
     ("email", .str fu.email),
     ("emailVerified", .boolean fu.emailVerified),
     ("displayName",
       if fu.displayName != "" then .str fu.displayName
       else (jsLookup profileData "displayName").getD .nul),
     ("photoURL",
       if fu.photoURL != "" then .str fu.photoURL
       else (jsLookup profileData "photoURL").getD .nul),
     ("createdAt", .str fu.creationTime),
     ("lastSignInTime", .str fu.lastSignInTime)]
    profileData

/-- Generated `signUp` (lines 169–235): account creation, optional Auth
profile update, Firestore profile write, optional verification email (on
success `emailVerificationSent := true`), then `currentUser` update; any
failure is classified, stored in `error` and re-thrown; `finally` clears
`loading`. -/
def signUp (env : SignUpEnv) (s : StoreState) :
    StoreState × Except JsError (List (String × JsValue)) :=
  flowFinally (
    let s := authFlowEntry s
    let fail := fun (e : JsError) =>
      let msg := classifySignUpError e
      ({ s with error := some msg }, (.error ⟨e.code, msg⟩ :
        Except JsError (List (String × JsValue))))
    match env.createResult with
    | .error e => fail e
    | .ok fu =>
      let needsAuthProfileUpdate :=
        jsTruthy (jsLookup env.profileData "displayName") ||
        jsTruthy (jsLookup env.profileData "photoURL")
      match (if needsAuthProfileUpdate then env.updateAuthProfileResult else .ok ()) with
      | .error e => fail e
      | .ok _ =>
        let userDoc := signUpProfileDoc fu env.profileData
        match env.addProfileResult with
        | .error e => fail e
        | .ok _ =>
          match (if env.sendVerification then env.sendVerificationResult else .ok ()) with
          | .error e => fail e
          | .ok _ =>
            let s := if env.sendVerification then { s with emailVerificationSent := true } else s
            ({ s with currentUser := some userDoc }, .ok userDoc))

/-- Collaborator outcome one `logout` invocation can observe (lines 246–263). -/
structure LogoutEnv where
  signOutResult : Except JsError Unit

/-- Generated `logout`: on success clears `currentUser` and
`emailVerificationSent`; on failure stores the raw message in `error` and
throws the fixed `{code: 'auth/logout-failed', message: 'Logout failed'}`;
`finally` clears `loading`. -/
def logout (env : LogoutEnv) (s : StoreState) : StoreState × Except JsError Unit :=
  flowFinally (
    let s := authFlowEntry s
    match env.signOutResult with
    | .ok _ => ({ s with currentUser := none, emailVerificationSent := false }, .ok ())
    | .error e =>
      ({ s with error := some e.message },
       .error ⟨some "auth/logout-failed", "Logout failed"⟩))

/-- Collaborator outcome one `sendPasswordReset` invocation can observe
(lines 279–304). -/
structure ResetEnv where
  resetResult : Except JsError Unit

/-- The generated sendPasswordReset's classification table (lines 287–297). -/
def classifyResetError (e : JsError) : String :=
  match e.code with
  | some "auth/user-not-found" => "No user found with this email address."
  | some "auth/invalid-email" => "The email address is not valid."
  | _ => jsOrDefault e.message "An unknown error occurred while sending reset email."

/-- Generated `sendPasswordReset` (lines 279–304). -/
def sendPasswordReset (env : ResetEnv) (s : StoreState) : StoreState × Except JsError Unit :=
  flowFinally (
    let s := authFlowEntry s
    match env.resetResult with
    | .ok _ => (s, .ok ())
    | .error e =>
      let msg := classifyResetError e
      ({ s with error := some msg }, .error ⟨e.code, msg⟩))

/-- Collaborator outcomes one `updateProfile` invocation can observe
(lines 316–358). `nowISO` is the ambient clock read at line 337. -/
structure UpdateProfileEnv where
  authCurrentUser : Option FbUser
  updateAuthResult : Except JsError Unit
  firestoreUpdateResult : Except JsError Unit
  refetchResult : Except JsError (Option (List (String × JsValue)))
  profileData : List (String × JsValue)
  nowISO : String

/-- Generated `updateProfile` (lines 316–358): requires an authenticated
user; updates the Auth profile, mirrors displayName/photoURL into
`currentUser`, then (when a uid is present) updates the Firestore profile
with a timestamp and re-merges the re-fetched document; every failure
stores the raw message in `error` and throws the fixed
`{code: 'auth/profile-update-failed', message: 'Profile update failed'}`;
`finally` clears `loading`. -/
def updateProfile (env : UpdateProfileEnv) (s : StoreState) :
    StoreState × Except JsError (Option (List (String × JsValue))) :=
  flowFinally (
    let s := authFlowEntry s
    let fail := fun (st : StoreState) (e : JsError) =>
      ({ st with error := some e.message },
       (.error ⟨some "auth/profile-update-failed", "Profile update failed"⟩ :
         Except JsError (Option (List (String × JsValue)))))
    match env.authCurrentUser with
    | none => fail s ⟨none, "No authenticated user to update profile."⟩
    | some au =>
      match env.updateAuthResult with
      | .error e => fail s e
      | .ok _ =>
        let merged := jsSpread (s.currentUser.getD [])
          [("displayName", .str au.displayName), ("photoURL", .str au.photoURL)]
        let s := { s with currentUser := some merged }
        if jsTruthy (jsLookup merged "uid") then
          match env.firestoreUpdateResult with
          | .error e => fail s e
          | .ok _ =>
            match env.refetchResult with
            | .error e => fail s e
            | .ok (some updated) =>
              let s := { s with currentUser := some (jsSpread merged updated) }
              (s, .ok s.currentUser)
            | .ok none => (s, .ok s.currentUser)
        else (s, .ok s.currentUser))

/-- Collaborator outcomes one `changePassword` invocation can observe
(lines 376–417). -/
structure ChangePasswordEnv where
  authCurrentUser : Option FbUser
  reauthResult : Except JsError Unit
  updatePasswordResult : Except JsError Unit

/-- The generated changePassword's classification table (lines 397–410). -/
def classifyChangePasswordError (e : JsError) : String :=
  match e.code with
  | some "auth/wrong-password" => "The current password you entered is incorrect."
  | some "auth/requires-recent-login" => "Your session has expired. Please log in again to change your password."
  | some "auth/weak-password" => "The new password is too weak. Please choose a stronger password."
  | _ => jsOrDefault e.message "An unknown error occurred while changing password."

/-- Generated `changePassword` (lines 376–417): requires an authenticated
user with an email; reauthenticates then updates the password; failures
are classified, stored in `error` and re-thrown; `finally` clears
`loading`. -/
def changePassword (env : ChangePasswordEnv) (s : StoreState) :
    StoreState × Except JsError Unit :=
  flowFinally (
    let s := authFlowEntry s
    let fail := fun (e : JsError) =>
      let msg := classifyChangePasswordError e
      ({ s with error := some msg }, (.error ⟨e.code, msg⟩ : Except JsError Unit))
    match env.authCurrentUser with
    | none => fail ⟨none, "No authenticated user or email not available for reauthentication."⟩
    | some au =>
      if au.email = "" then
        fail ⟨none, "No authenticated user or email not available for reauthentication."⟩
      else
        match env.reauthResult with
        | .error e => fail e
        | .ok _ =>
          match env.updatePasswordResult with
          | .error e => fail e
          | .ok _ => (s, .ok ()))

/-- Collaborator outcomes one `resendVerificationEmail` invocation can
observe (lines 495–521). -/
structure ResendEnv where
  authCurrentUser : Option FbUser
  sendResult : Except JsError Unit

/-- The generated resendVerificationEmail's classification table
(lines 507–514). -/
def classifyResendError (e : JsError) : String :=
  match e.code with
  | some "auth/too-many-requests" => "Too many requests. Please wait before trying again."
  | _ => jsOrDefault e.message "An unknown error occurred."

/-- Generated `resendVerificationEmail` (lines 495–521): requires an
authenticated user; on success records `emailVerificationSent := true`;
failures are classified, stored in `error` and re-thrown; `finally`
clears `loading`. -/
def resendVerificationEmail (env : ResendEnv) (s : StoreState) :
    StoreState × Except JsError Unit :=
  flowFinally (
    let s := authFlowEntry s
    let fail := fun (e : JsError) =>
      let msg := classifyResendError e
      ({ s with error := some msg }, (.error ⟨e.code, msg⟩ : Except JsError Unit))
    match env.authCurrentUser with
    | none => fail ⟨none, "No authenticated user to send verification email."⟩
    | some _ =>
      match env.sendResult with
      | .error e => fail e
      | .ok _ => ({ s with emailVerificationSent := true }, .ok ()))

/-- The auth-state snapshot one `fetchUser` invocation observes: the
Firebase user the just-registered `onAuthStateChanged` listener is
immediately called back with, and the outcome of the Firestore profile
fetch inside that callback. -/
structure AuthSnapshot where
  firebaseUser : Option FbUser
  profileResult : Except JsError (Option (List (String × JsValue)))

/-- Generated `fetchUser` (lines 432–487), big-step over one awaited
invocation. The guard is `state.authInitialized.value` alone. When it is
false the flow subscribes `onAuthStateChanged` (modelled by incrementing
`subscribeCount`); the listener is immediately invoked with the current
auth state, merges the Firestore profile into the user object (falling
back to the bare Auth fields when the profile fetch fails), and in its
`finally` sets `authInitialized := true` and resolves the promise with
the new `currentUser`. When the guard is true the invocation resolves at
once with the stored `currentUser` and subscribes nothing. The outer
catch (lines 472–475) is unreachable in this model — the only fallible
step is the profile fetch, which is handled by the inner catch — and
`fetchUser` contains no write to `loading` and no clearing of `error`. -/
def fetchUser (env : AuthSnapshot) (s : StoreState) (subscribeCount : Nat) :
    StoreState × Nat × Option (List (String × JsValue)) :=
  if s.authInitialized then
    (s, subscribeCount, s.currentUser)
  else
    let cu : Option (List (String × JsValue)) :=
      match env.firebaseUser with
      | some fu =>
        match env.profileResult with
        | .ok p => some (jsSpread (fbUserFields fu) (p.getD []))
        | .error _ => some (fbUserFields fu)
      | none => none
    ({ s with currentUser := cu, authInitialized := true }, subscribeCount + 1, cu)

/-- generateActionFiles.js lines 24–126: the fixed part of the per-file
template, from the import through the `delete` member and the four spaces
of indentation that precede the interpolated auth conditional. -/
def generateActionFilesPrefix (col pascalCol : String) : String :=
  "import \x7b useFirestoreCollectionActions \x7d from \"../useFirestoreCollectionActions.js\";\n\n" ++
  "/**\n * Generates a set of Firestore actions scoped to the \x60" ++ col ++ "\x60 collection.\n *\n" ++
  " * @param \x7bObject\x7d state - The reactive state from a Pinia store instance.\n" ++
  " * @returns \x7bObject\x7d A set of methods to interact with the \x60" ++ col ++ "\x60 Firestore collection.\n */\n" ++
  "export function use" ++ pascalCol ++ "Actions(state) \x7b\n" ++
  "  // IMPORTANT: Ensure this collection name exactly matches your Firestore collection.\n" ++
  "  const collectionName = \"" ++ col ++ "\";\n\n" ++
  "  // Create the generic actions instance once.\n" ++
  "  const actions = useFirestoreCollectionActions(collectionName, state);\n\n" ++
  "  return \x7b\n" ++
  "    /**\n     * Fetches the initial page of \x60" ++ col ++ "\x60 documents based on current filters and sorting.\n     * @param \x7bObject\x7d [options] - Fetch options\n     * @param \x7bnumber\x7d [options.pageSize] - Items per page\n     * @param \x7bObject\x7d [options.filters] - Filters to apply\n     * @param \x7bObject\x7d [options.orderBy] - Sorting configuration\n     * @returns \x7bPromise<void>\x7d\n     */\n" ++
  "    fetchInitialPage" ++ pascalCol ++ ": actions.fetchInitialPage,\n\n" ++
  "    /**\n     * Fetches the next page of \x60" ++ col ++ "\x60 documents (for load more functionality).\n     * @returns \x7bPromise<void>\x7d\n     */\n" ++
  "    fetchNextPage" ++ pascalCol ++ ": actions.fetchNextPage,\n\n" ++
  "    /**\n     * Applies filters to the \x60" ++ col ++ "\x60 collection and re-fetches the initial page.\n     * @param \x7bObject\x7d filters - Filter configuration (e.g., \x7b field: \x27value\x27 \x7d)\n     * @returns \x7bPromise<void>\x7d\n     */\n" ++
  "    apply" ++ pascalCol ++ "Filters: actions.applyFilters,\n\n" ++
  "    /**\n     * Changes the sorting of the \x60" ++ col ++ "\x60 collection and re-fetches the initial page.\n     * @param \x7bstring\x7d field - Field to sort by.\n     * @param \x7bstring\x7d [direction=\x27asc\x27] - Sort direction (\x27asc\x27 or \x27desc\x27).\n     * @returns \x7bPromise<void>\x7d\n     */\n" ++
  "    change" ++ pascalCol ++ "Sorting: actions.changeSorting,\n\n" ++
  "    /**\n     * Adds a new document to the \x60" ++ col ++ "\x60 collection.\n     * @param \x7bObject\x7d data - The data for the new \x60" ++ col ++ "\x60 document.\n     * @returns \x7bPromise<string>\x7d The ID of the newly added document.\n     */\n" ++
  "    add" ++ pascalCol ++ ": actions.add,\n\n\n" ++
  "    /**\n     * Fetches documents from the collection where a field matches a value\n     * @async\n     * @function\n     * @param \x7bstring\x7d field - Field to filter\n     * @param \x7bstring\x7d operator - Firestore comparison operator (e.g., \x27==\x27, \x27<=\x27, \x27>=\x27, \x27array-contains\x27)\n     * @param \x7bany\x7d value - Value to match\n     * @returns \x7bPromise<Array>\x7d Array of matched documents\n     */\n" ++
  "    getWhere" ++ pascalCol ++ ": actions.getWhere,\n\n" ++
  "    /**\n     * Updates an existing document in the \x60" ++ col ++ "\x60 collection.\n     * @param \x7bstring\x7d id - The ID of the document to update.\n     * @param \x7bObject\x7d data - The partial data to update the document with.\n     * @returns \x7bPromise<void>\x7d\n     */\n" ++
  "    update" ++ pascalCol ++ ": actions.update,\n\n" ++
  "    /**\n     * get an existing document in the \x60" ++ col ++ "\x60 collection.\n     * @param \x7bstring\x7d id - The ID of the document to update.\n     * @param \x7bObject\x7d data - The partial data to update the document with.\n     * @returns \x7bObject\x7d\n     */\n" ++
  "    get" ++ pascalCol ++ ": actions.get,\n\n" ++
  "    /**\n     * Performs a search on the \x60" ++ col ++ "\x60 collection.\n     * The specific search fields/logic depend on the \x60useFirestoreCollectionActions\x60 implementation.\n     * @param \x7bstring\x7d term - The search term.\n     * @param \x7bstring\x7d [field] - Optional field to search within.\n     * @returns \x7bPromise<void>\x7d\n     */\n" ++
  "    search" ++ pascalCol ++ ": actions.search,\n\n" ++
  "    /**\n     * Clears any active search results for the \x60" ++ col ++ "\x60 collection.\n     * @returns \x7bvoid\x7d\n     */\n" ++
  "    clear" ++ pascalCol ++ "Search: actions.clearSearch,\n\n" ++
  "    /**\n     * Deletes a document from the \x60" ++ col ++ "\x60 collection.\n     * @param \x7bstring\x7d id - The ID of the document to delete.\n     * @returns \x7bPromise<void>\x7d\n     */\n" ++
  "    delete" ++ pascalCol ++ ": actions.remove,\n    "

/-- generateActionFiles.js lines 127–145: the inner template of the
`${isAuth ? ... : ''}` conditional — the assign/revoke member pair. -/
def generateActionFilesAuthBlock (col pascalCol : String) : String :=
  "\n    /**\n     * Assigns roles to a user within the \x60" ++ col ++ "\x60 context.\n     * Applicable primarily to authentication-related collections (e.g., \x27users\x27).\n     * @param \x7bstring\x7d userId - The ID of the user.\n     * @param \x7bstring[]\x7d roles - An array of roles to assign.\n     * @returns \x7bPromise<void>\x7d\n     */\n" ++
  "    assign" ++ pascalCol ++ "Roles: actions.assignRoles,\n\n" ++
  "    /**\n     * Revokes roles from a user within the \x60" ++ col ++ "\x60 context.\n     * Applicable primarily to authentication-related collections (e.g., \x27users\x27).\n     * @param \x7bstring\x7d userId - The ID of the user.\n     * @param \x7bstring[]\x7d roles - An array of roles to revoke.\n     * @returns \x7bPromise<void>\x7d\n     */\n" ++
  "    revoke" ++ pascalCol ++ "Roles: actions.revokeRoles,\n    "

/-- generateActionFiles.js lines 18–148: the file content generated for
one collection — `camelCol = toCamel(col)`, `pascalCol = capitalize(camelCol)`,
`isAuth = authCollections.includes(col)`, and the template with the
auth-gated member pair. -/
def generateActionFilesContent (col : String) (authCollections : List String) : String :=
  let camelCol := toCamel col
  let pascalCol := capitalize camelCol
  let isAuth := authCollections.contains col
  generateActionFilesPrefix col pascalCol ++
  (if isAuth then generateActionFilesAuthBlock col pascalCol else "") ++
  "\n  \x7d;\n\x7d\n"

/-- The member property names `generateActionFilesContent` binds, in
template order: the eleven fixed members (lines 48, 54, 61, 69, 76, 88,
96, 104, 113, 119, 126) and, exactly under the template's auth
conditional, the assign/revoke pair (lines 135 and 144). -/
def generateActionFilesMemberNames (pascalCol : String) (isAuth : Bool) : List String :=
  ["fetchInitialPage" ++ pascalCol,
   "fetchNextPage" ++ pascalCol,
   "apply" ++ pascalCol ++ "Filters",
   "change" ++ pascalCol ++ "Sorting",
   "add" ++ pascalCol,
   "getWhere" ++ pascalCol,
   "update" ++ pascalCol,
   "get" ++ pascalCol,
   "search" ++ pascalCol,
   "clear" ++ pascalCol ++ "Search",
   "delete" ++ pascalCol] ++
  (if isAuth then
    ["assign" ++ pascalCol ++ "Roles", "revoke" ++ pascalCol ++ "Roles"]
   else [])

/-- A 65-character collection name: matches the spec's identifier pattern
(`^[A-Za-z][A-Za-z0-9_-]*$` has no length bound) but not the code's
`{0,63}`-bounded regex. -/
def longName : String := String.mk (List.replicate 65 'a')

/-- A concrete auth-state snapshot: a signed-in user whose Firestore
profile fetch succeeds. -/
def sampleSnapshot : AuthSnapshot :=
  ⟨some ⟨"u1", "ada@example.com", true, "Ada", "", "t0", "t1"⟩,
   .ok (some [("roles", JsValue.str "admin")])⟩

/-- The store state at application start: nothing loaded, no user, auth
not yet initialized. -/
def initialStoreState : StoreState := ⟨none, false, none, false, false⟩

lemma ne_len₁ (p q r : String) (h : q.length ≠ p.length + r.length) (S : String) :
    ¬(p ++ S ++ r = q ++ S) := by
  intro e
  have h2 := congrArg String.length e
  simp only [String.length_append] at h2
  omega

lemma ne_len₂ (p r q r' : String) (h : p.length + r.length ≠ q.length + r'.length)
    (S : String) : ¬(p ++ S ++ r = q ++ S ++ r') := by
  intro e
  have h2 := congrArg String.length e
  simp only [String.length_append] at h2
  omega

lemma ne_head (c c' : Char) (pt qt : List Char) (p q r r' : String)
    (hp : p.data = c :: pt) (hq : q.data = c' :: qt) (hcc : c ≠ c') (S : String) :
    ¬(p ++ S ++ r = q ++ S ++ r') := by
  intro e
  have h2 := congrArg String.data e
  simp only [String.data_append] at h2
  rw [hp, hq] at h2
  simp only [List.cons_append] at h2
  injection h2 with h3 _
  exact hcc h3

lemma one_le_countSub (pat l₁ l₂ : List Char) (h : pat ++ l₂ ≠ []) :
    1 ≤ countSub pat (l₁ ++ (pat ++ l₂)) := by
  induction l₁ with
  | nil =>
    simp only [List.nil_append]
    cases hpl : pat ++ l₂ with
    | nil => exact absurd hpl h
    | cons c cs =>
      have hpre : pat.isPrefixOf (c :: cs) = true := by
        rw [← hpl]
        exact List.isPrefixOf_iff_prefix.mpr (List.prefix_append pat l₂)
      simp only [countSub, hpre]
      simp
  | cons c l₁ ih =>
    have hassoc : (c :: l₁) ++ (pat ++ l₂) = c :: (l₁ ++ (pat ++ l₂)) := by simp
    rw [hassoc]
    simp only [countSub]
    exact Nat.le_trans ih (Nat.le_add_left _ _)

lemma count_assign_emitted (S : String) :
    (emittedMemberNames S).count ("assign" ++ S ++ "Roles") = 1 := by
  simp only [emittedMemberNames, actionDescriptors, List.map_cons, List.map_nil]
  simp [List.count_cons, List.count_nil, beq_iff_eq,
    ne_len₁ "assign" "fetchInitialPage" "Roles" (by decide) S,
    ne_len₁ "assign" "fetchNextPage" "Roles" (by decide) S,
    ne_len₂ "assign" "Roles" "apply" "Filters" (by decide) S,
    ne_len₂ "assign" "Roles" "change" "Sorting" (by decide) S,
    ne_len₁ "assign" "add" "Roles" (by decide) S,
    ne_len₁ "assign" "get" "Roles" (by decide) S,
    ne_len₁ "assign" "getWhere" "Roles" (by decide) S,
    ne_len₁ "assign" "update" "Roles" (by decide) S,
    ne_len₁ "assign" "search" "Roles" (by decide) S,
    ne_head 'a' 'c' "ssign".data "lear".data "assign" "clear" "Roles" "Search" rfl rfl (by decide) S,
    ne_len₁ "assign" "delete" "Roles" (by decide) S,
    ne_head 'a' 'r' "ssign".data "evoke".data "assign" "revoke" "Roles" "Roles" rfl rfl (by decide) S]

lemma count_revoke_emitted (S : String) :
    (emittedMemberNames S).count ("revoke" ++ S ++ "Roles") = 1 := by
  simp only [emittedMemberNames, actionDescriptors, List.map_cons, List.map_nil]
  simp [List.count_cons, List.count_nil, beq_iff_eq,
    ne_len₁ "revoke" "fetchInitialPage" "Roles" (by decide) S,
    ne_len₁ "revoke" "fetchNextPage" "Roles" (by decide) S,
    ne_len₂ "revoke" "Roles" "apply" "Filters" (by decide) S,
    ne_len₂ "revoke" "Roles" "change" "Sorting" (by decide) S,
    ne_len₁ "revoke" "add" "Roles" (by decide) S,
    ne_len₁ "revoke" "get" "Roles" (by decide) S,
    ne_len₁ "revoke" "getWhere" "Roles" (by decide) S,
    ne_len₁ "revoke" "update" "Roles" (by decide) S,
    ne_len₁ "revoke" "search" "Roles" (by decide) S,
    ne_head 'r' 'c' "evoke".data "lear".data "revoke" "clear" "Roles" "Search" rfl rfl (by decide) S,
    ne_len₁ "revoke" "delete" "Roles" (by decide) S,
    ne_head 'r' 'a' "evoke".data "ssign".data "revoke" "assign" "Roles" "Roles" rfl rfl (by decide) S]

lemma count_assign_actionFiles (p : String) (isAuth : Bool) :
    (generateActionFilesMemberNames p isAuth).count ("assign" ++ p ++ "Roles") =
      if isAuth then 1 else 0 := by
  simp only [generateActionFilesMemberNames]
  cases isAuth <;>
    simp [List.count_cons, List.count_nil, List.count_append, beq_iff_eq,
      ne_len₁ "assign" "fetchInitialPage" "Roles" (by decide) p,
      ne_len₁ "assign" "fetchNextPage" "Roles" (by decide) p,
      ne_len₂ "assign" "Roles" "apply" "Filters" (by decide) p,
      ne_len₂ "assign" "Roles" "change" "Sorting" (by decide) p,
      ne_len₁ "assign" "add" "Roles" (by decide) p,
      ne_len₁ "assign" "getWhere" "Roles" (by decide) p,
      ne_len₁ "assign" "update" "Roles" (by decide) p,
      ne_len₁ "assign" "get" "Roles" (by decide) p,
      ne_len₁ "assign" "search" "Roles" (by decide) p,
      ne_head 'a' 'c' "ssign".data "lear".data "assign" "clear" "Roles" "Search" rfl rfl (by decide) p,
      ne_len₁ "assign" "delete" "Roles" (by decide) p,
      ne_head 'a' 'r' "ssign".data "evoke".data "assign" "revoke" "Roles" "Roles" rfl rfl (by decide) p]

lemma count_revoke_actionFiles (p : String) (isAuth : Bool) :
    (generateActionFilesMemberNames p isAuth).count ("revoke" ++ p ++ "Roles") =
      if isAuth then 1 else 0 := by
  simp only [generateActionFilesMemberNames]
  cases isAuth <;>
    simp [List.count_cons, List.count_nil, List.count_append, beq_iff_eq,
      ne_len₁ "revoke" "fetchInitialPage" "Roles" (by decide) p,
      ne_len₁ "revoke" "fetchNextPage" "Roles" (by decide) p,
      ne_len₂ "revoke" "Roles" "apply" "Filters" (by decide) p,
      ne_len₂ "revoke" "Roles" "change" "Sorting" (by decide) p,
      ne_len₁ "revoke" "add" "Roles" (by decide) p,
      ne_len₁ "revoke" "getWhere" "Roles" (by decide) p,
      ne_len₁ "revoke" "update" "Roles" (by decide) p,
      ne_len₁ "revoke" "get" "Roles" (by decide) p,
      ne_len₁ "revoke" "search" "Roles" (by decide) p,
      ne_head 'r' 'c' "evoke".data "lear".data "revoke" "clear" "Roles" "Search" rfl rfl (by decide) p,
      ne_len₁ "revoke" "delete" "Roles" (by decide) p,
      ne_head 'r' 'a' "evoke".data "ssign".data "revoke" "assign" "Roles" "Roles" rfl rfl (by decide) p]

set_option maxRecDepth 8000 in
/-- C1 counterexample: `products` is not an auth collection under the
driver's classifier, yet the module the per-collection composer
(`generateCollectionActionModule`) builds for it carries exactly one
`assignProductsRoles` and one `revokeProductsRoles` member — the
`forEach` over the descriptor table has no auth conditional, so the
claimed "zero occurrences when isAuthCollection is false" is violated. -/
theorem c1_counterexample :
    isAuthCollection "products" = false ∧
    (emittedMemberNames (composerSuffix "products")).count "assignProductsRoles" = 1 ∧
    (emittedMemberNames (composerSuffix "products")).count "revokeProductsRoles" = 1 ∧
    countOccurrences
      (memberBlock (composerSuffix "products") (actionDescriptors.get ⟨11, by decide⟩))
      "assignProductsRoles" = 1 := by
  refine ⟨by decide, by decide, by decide, by decide⟩

/-- C1 amended: the per-collection composer emits the assignRoles- and
revokeRoles-derived members for every collection, auth or not — exactly
one of each for every suffix; the auth gating described by the claim is
present only in the separate `generateActionFiles` generator (not invoked
by the driver), whose member list omits both members when the collection
is not in `authCollections` and carries exactly one of each when it is. -/
theorem c1_amended :
    (∀ S : String,
      (emittedMemberNames S).count ("assign" ++ S ++ "Roles") = 1 ∧
      (emittedMemberNames S).count ("revoke" ++ S ++ "Roles") = 1) ∧
    (∀ p : String,
      (generateActionFilesMemberNames p false).count ("assign" ++ p ++ "Roles") = 0 ∧
      (generateActionFilesMemberNames p false).count ("revoke" ++ p ++ "Roles") = 0 ∧
      (generateActionFilesMemberNames p true).count ("assign" ++ p ++ "Roles") = 1 ∧
      (generateActionFilesMemberNames p true).count ("revoke" ++ p ++ "Roles") = 1) := by
  refine ⟨fun S => ⟨count_assign_emitted S, count_revoke_emitted S⟩, fun p => ⟨?_, ?_, ?_, ?_⟩⟩
  · exact count_assign_actionFiles p false
  · exact count_revoke_actionFiles p false
  · exact count_assign_actionFiles p true
  · exact count_revoke_actionFiles p true

/-- C2 counterexample: the composer derives the suffix as
`capitalize(collectionName)` directly — for the raw name
`client-submissions` that is `Client-submissions`, not the claimed
`capitalizeFirst(toIdentifierCase(rawName)) = ClientSubmissions`, and the
member names for `client-submissions` and `client_submissions` differ. -/
theorem c2_counterexample :
    composerSuffix "client-submissions" = "Client-submissions" ∧
    capitalize (toCamelCase "client-submissions") = "ClientSubmissions" ∧
    composerSuffix "client-submissions" ≠ capitalize (toCamelCase "client-submissions") ∧
    emittedMemberNames (composerSuffix "client-submissions") ≠
      emittedMemberNames (composerSuffix "client_submissions") := by
  refine ⟨rfl, rfl, by decide, by decide⟩

/-- C2 amended: the `toIdentifierCase` normalization lives in the driver,
not the composer — index.js maps every entered name through `toCamelCase`
before calling the composer, so along the driver pipeline the inputs
`client-submissions`, `client_submissions` and `Client Submissions` all
become the collection `clientSubmissions`, whose composer suffix is
`ClientSubmissions` with identical member names; the composer applied to
a raw un-normalized name instead uses `capitalize(rawName)` verbatim. -/
theorem c2_amended :
    driverParseCollections "client-submissions" = ["clientSubmissions"] ∧
    driverParseCollections "client_submissions" = ["clientSubmissions"] ∧
    driverParseCollections "Client Submissions" = ["clientSubmissions"] ∧
    composerSuffix "clientSubmissions" = "ClientSubmissions" ∧
    emittedMemberNames "ClientSubmissions" =
      ["fetchInitialPageClientSubmissions", "fetchNextPageClientSubmissions",
       "applyClientSubmissionsFilters", "changeClientSubmissionsSorting",
       "addClientSubmissions", "getClientSubmissions", "getWhereClientSubmissions",
       "updateClientSubmissions", "searchClientSubmissions",
       "clearClientSubmissionsSearch", "deleteClientSubmissions",
       "assignClientSubmissionsRoles", "revokeClientSubmissionsRoles"] ∧
    composerSuffix "client-submissions" = "Client-submissions" := by
  refine ⟨by decide, by decide, by decide, rfl, by decide, rfl⟩

/-- C3: idempotent re-entry of the generated session-restore flow
(`fetchUser`), big-step over awaited invocations against a fixed
auth-state snapshot (no intervening auth-state change). From an
uninitialized state the first invocation subscribes the listener exactly
once; the second invocation subscribes nothing, leaves the state
untouched, and both invocations resolve with the same current-user value,
which is the stored `currentUser`. -/
theorem c3_fetchUser_idempotent_reentry (env : AuthSnapshot) (s : StoreState) (n : Nat)
    (h : s.authInitialized = false) :
    (fetchUser env s n).2.1 = n + 1 ∧
    (fetchUser env (fetchUser env s n).1 (fetchUser env s n).2.1).2.1 = n + 1 ∧
    (fetchUser env (fetchUser env s n).1 (fetchUser env s n).2.1).2.2 = (fetchUser env s n).2.2 ∧
    (fetchUser env s n).2.2 = (fetchUser env s n).1.currentUser ∧
    (fetchUser env (fetchUser env s n).1 (fetchUser env s n).2.1).1 = (fetchUser env s n).1 := by
  simp [fetchUser, h]

/-- C3 witness: the double-invocation property evaluated at a concrete
snapshot (a signed-in user whose profile fetch succeeds) and the initial
store state. -/
theorem c3_witness :
    initialStoreState.authInitialized = false ∧
    ((fetchUser sampleSnapshot initialStoreState 0).2.1 = 0 + 1 ∧
     (fetchUser sampleSnapshot (fetchUser sampleSnapshot initialStoreState 0).1
        (fetchUser sampleSnapshot initialStoreState 0).2.1).2.1 = 0 + 1 ∧
     (fetchUser sampleSnapshot (fetchUser sampleSnapshot initialStoreState 0).1
        (fetchUser sampleSnapshot initialStoreState 0).2.1).2.2 =
       (fetchUser sampleSnapshot initialStoreState 0).2.2 ∧
     (fetchUser sampleSnapshot initialStoreState 0).2.2 =
       (fetchUser sampleSnapshot initialStoreState 0).1.currentUser ∧
     (fetchUser sampleSnapshot (fetchUser sampleSnapshot initialStoreState 0).1
        (fetchUser sampleSnapshot initialStoreState 0).2.1).1 =
       (fetchUser sampleSnapshot initialStoreState 0).1) :=
  ⟨rfl, c3_fetchUser_idempotent_reentry sampleSnapshot initialStoreState 0 rfl⟩

/-- C4: the action descriptor table is fixed and ordered: exactly 13
descriptors, their capability keys in the order of the source table, and
for every suffix S the derived exported member names are exactly the
thirteen claimed forms, in that order. -/
theorem c4_descriptor_table :
    actionDescriptors.length = 13 ∧
    actionDescriptors.map (fun d => d.key) =
      ["fetchInitialPage", "fetchNextPage", "applyFilters", "changeSorting", "add",
       "get", "getWhere", "update", "search", "clearSearch", "remove",
       "assignRoles", "revokeRoles"] ∧
    ∀ S : String, actionDescriptors.map (fun d => d.exportName S) =
      ["fetchInitialPage" ++ S, "fetchNextPage" ++ S, "apply" ++ S ++ "Filters",
       "change" ++ S ++ "Sorting", "add" ++ S, "get" ++ S, "getWhere" ++ S,
       "update" ++ S, "search" ++ S, "clear" ++ S ++ "Search", "delete" ++ S,
       "assign" ++ S ++ "Roles", "revoke" ++ S ++ "Roles"] :=
  ⟨by decide, rfl, fun _ => rfl⟩

set_option maxRecDepth 8000 in
/-- C5 counterexample: the composer calls each descriptor's doc template
with the SUFFIX (`jsdoc(suffix)` at line 206), so for the collection
`products` the documentation says "Products" (the PascalCase suffix) and
never the original non-Pascal name `products` — except in the
assign/revoke templates, which lowercase their argument. The per-descriptor
occurrence counts of the two spellings refute "references the original
(non-Pascal) collection name". -/
theorem c5_counterexample :
    composerSuffix "products" = "Products" ∧
    actionDescriptors.map
        (fun d => countOccurrences (d.jsdoc (composerSuffix "products")) "Products") =
      [1, 1, 1, 1, 1, 0, 0, 1, 1, 1, 1, 0, 0] ∧
    actionDescriptors.map
        (fun d => countOccurrences (d.jsdoc (composerSuffix "products")) "products") =
      [0, 0, 0, 0, 0, 0, 0, 0, 0, 0, 0, 1, 1] := by
  refine ⟨rfl, by decide, by decide⟩

set_option maxRecDepth 8000 in
/-- C5 amended: the documentation each descriptor derives references the
PascalCase suffix, not the original name: for every collection name the
first descriptor's doc text contains the suffix (at least one occurrence
of `composerSuffix name`), and at `products` the original lowercase name
appears only in the role templates (which lowercase the suffix they are
given), not in the page-fetch doc. -/
theorem c5_amended :
    (∀ name : String,
      1 ≤ countOccurrences
            ((actionDescriptors.get ⟨0, by decide⟩).jsdoc (composerSuffix name))
            (composerSuffix name)) ∧
    countOccurrences ((actionDescriptors.get ⟨11, by decide⟩).jsdoc (composerSuffix "products"))
        "products" = 1 ∧
    countOccurrences ((actionDescriptors.get ⟨0, by decide⟩).jsdoc (composerSuffix "products"))
        "products" = 0 := by
  refine ⟨?_, by decide, by decide⟩
  intro name
  show 1 ≤ countOccurrences
      ("/**\n * Fetches the first page of " ++ composerSuffix name ++ " with optional filters and sorting.\n * @function\n * @param \x7b...any\x7d args - Arguments forwarded to fetchInitialPage\n * @returns \x7bPromise<void>\x7d\n */")
      (composerSuffix name)
  simp only [countOccurrences, String.data_append]
  rw [List.append_assoc]
  exact one_le_countSub (composerSuffix name).data _ _
    (List.append_ne_nil_of_right_ne_nil _ (by decide))

lemma codeNameOk_eq (s : String) :
    codeNameOk s = (specNameOk s && decide (s.length ≤ 64)) := by
  cases s with
  | mk l =>
    cases l with
    | nil => rfl
    | cons c cs =>
      show (c.isAlpha && decide (cs.length ≤ 63) && cs.all nameBodyChar)
        = (c.isAlpha && cs.all nameBodyChar && decide ((String.mk (c :: cs)).length ≤ 64))
      have hd : decide ((String.mk (c :: cs)).length ≤ 64) = decide (cs.length ≤ 63) := by
        apply decide_eq_decide.mpr
        show (c :: cs).length ≤ 64 ↔ _
        simp only [List.length_cons]
        omega
      rw [hd]
      cases c.isAlpha <;> cases cs.all nameBodyChar <;> cases decide (cs.length ≤ 63) <;> rfl

/-- C6 amended: composition fails exactly when the raw name fails the
CODE's regex, which is the spec's pattern plus a total-length bound of 64
(`{0,63}` body characters after the leading letter); on failure the
result is the wrapped error naming the offending collection twice and no
(path, content) write pair is produced; on any name passing the regex the
composer returns the write pair and never fails. -/
theorem c6_amended (env : GenEnv) (baseDir name : String) :
    (generateCollectionActionModuleAt env baseDir name).isOk = codeNameOk name ∧
    codeNameOk name = (specNameOk name && decide (name.length ≤ 64)) ∧
    (codeNameOk name = false →
      generateCollectionActionModuleAt env baseDir name =
        .error ("[Action Generator] " ++ name ++ " failed: " ++
                "Invalid Firestore collection name: " ++ name)) := by
  refine ⟨?_, codeNameOk_eq name, ?_⟩
  · unfold generateCollectionActionModuleAt
    cases h : codeNameOk name <;> simp [h, Except.isOk, Except.toBool]
  · intro h
    simp [generateCollectionActionModuleAt, h]

/-- C6 witness: the amended property evaluated at the invalid name `9bad`
(leading digit): composition yields the wrapping error and no write. -/
theorem c6_witness :
    (generateCollectionActionModuleAt someEnv "stores/shop" "9bad").isOk = codeNameOk "9bad" ∧
    codeNameOk "9bad" = (specNameOk "9bad" && decide (("9bad" : String).length ≤ 64)) ∧
    generateCollectionActionModuleAt someEnv "stores/shop" "9bad" =
      .error ("[Action Generator] " ++ "9bad" ++ " failed: " ++
              "Invalid Firestore collection name: " ++ "9bad") :=
  ⟨(c6_amended someEnv "stores/shop" "9bad").1,
   (c6_amended someEnv "stores/shop" "9bad").2.1,
   (c6_amended someEnv "stores/shop" "9bad").2.2 (by decide)⟩

/-- C6 counterexample: a 65-character name matches the spec's pattern
`^[A-Za-z][A-Za-z0-9_-]*$`, yet composition fails on it — the code's
regex bounds the length at 64, refuting "fails if and only if the name
does not match the identifier pattern". -/
theorem c6_counterexample :
    specNameOk longName = true ∧
    (generateCollectionActionModuleAt someEnv "stores/shop" longName).isOk = false := by
  constructor <;> decide

/-- C7 amended: the seven generated auth flows login, signUp, logout,
sendPasswordReset, updateProfile, changePassword and
resendVerificationEmail all begin with the shared entry (loading set
true, error cleared — each flow's definition factors through
`authFlowEntry`) and leave `loading = false` on every exit path, success
or failure (the `finally`); the session-restore flow `fetchUser` is the
exception the original claim misses: it never touches `loading` and
never clears `error`. -/
theorem c7_amended :
    (∀ s : StoreState, (authFlowEntry s).loading = true ∧ (authFlowEntry s).error = none) ∧
    (∀ (env : LoginEnv) (s : StoreState), (login env s).1.loading = false) ∧
    (∀ (env : SignUpEnv) (s : StoreState), (signUp env s).1.loading = false) ∧
    (∀ (env : LogoutEnv) (s : StoreState), (logout env s).1.loading = false) ∧
    (∀ (env : ResetEnv) (s : StoreState), (sendPasswordReset env s).1.loading = false) ∧
    (∀ (env : UpdateProfileEnv) (s : StoreState), (updateProfile env s).1.loading = false) ∧
    (∀ (env : ChangePasswordEnv) (s : StoreState), (changePassword env s).1.loading = false) ∧
    (∀ (env : ResendEnv) (s : StoreState), (resendVerificationEmail env s).1.loading = false) ∧
    (∀ (env : AuthSnapshot) (s : StoreState) (n : Nat),
      (fetchUser env s n).1.loading = s.loading ∧ (fetchUser env s n).1.error = s.error) := by
  refine ⟨fun _ => ⟨rfl, rfl⟩, fun _ _ => rfl, fun _ _ => rfl, fun _ _ => rfl, fun _ _ => rfl,
    fun _ _ => rfl, fun _ _ => rfl, fun _ _ => rfl, fun env s n => ?_⟩
  cases h : s.authInitialized <;> simp [fetchUser, h]

/-- C7 counterexample: one full session-restore (`fetchUser`) invocation
from a state carrying a stale error message: the flow runs (it subscribes,
`subscribeCount` becomes 1) yet the shared error field still holds the
stale message afterwards — session-restore does not clear `error` on
entry, refuting "every generated authentication flow function ... clears
the shared error field on entry". -/
theorem c7_counterexample :
    (fetchUser ⟨none, .error ⟨none, "boom"⟩⟩
      (⟨none, false, some "previous failure", false, false⟩ : StoreState) 0).1.error =
        some "previous failure" ∧
    (fetchUser ⟨none, .error ⟨none, "boom"⟩⟩
      (⟨none, false, some "previous failure", false, false⟩ : StoreState) 0).2.1 = 1 :=
  ⟨rfl, rfl⟩

/-- C8: the per-collection composer is deterministic and independent of
the ambient process state: its result is the same under any two ambient
states (in particular, composing the same inputs twice is byte-identical),
while the same ambient state does flow into the documentation
aggregator's timestamped line — the composer's independence is not
vacuous. -/
theorem c8_composer_deterministic :
    (∀ (e₁ e₂ : GenEnv) (baseDir name : String),
      generateCollectionActionModuleAt e₁ baseDir name =
        generateCollectionActionModuleAt e₂ baseDir name) ∧
    storeGuideGeneratedLine ⟨"January 1, 2026 at 12:00 PM"⟩ ≠
      storeGuideGeneratedLine ⟨"February 2, 2026 at 01:00 AM"⟩ :=
  ⟨fun _ _ _ _ => rfl, by decide⟩

/-- C9: the naming utilities are total on the empty string: both
`capitalize` and `toCamelCase` return the empty string unchanged (in the
source, `charAt(0)` and `slice(1)` on `""` are `""`, and the split of the
empty string yields a single empty word), with no exception. -/
theorem c9_naming_total_on_empty :
    capitalize "" = "" ∧ toCamelCase "" = "" := ⟨rfl, rfl⟩

/-- C10 counterexample: for a run entering `firestore-collection`, the
driver-normalized collection is `firestoreCollection`, and the index
file's import specifier `useFirestoreCollectionActions` then coincides
exactly with the `use<Suffix>Actions` function the composed action module
exports — so the import line does (on this input) name the module's
actual export, refuting the "never" in the claim. -/
theorem c10_counterexample :
    driverParseCollections "firestore-collection" = ["firestoreCollection"] ∧
    importedSpecifier (actionImportLine "firestoreCollection") =
      some "useFirestoreCollectionActions" ∧
    moduleExportedFunctionName "firestoreCollection" = "useFirestoreCollectionActions" := by
  refine ⟨by decide, by decide, by decide⟩

/-- C10 amended: the index composer's import line names the export
`useFirestoreCollectionActions` (checked on the emitted text for
`products`), while the composed action module exports
`use<capitalize(col)>Actions`; the two names differ for every collection
except the coincidence `capitalize(col) = "FirestoreCollection"` (e.g. a
run entering `firestore-collection`). -/
theorem c10_amended :
    importedSpecifier (actionImportLine "products") = some "useFirestoreCollectionActions" ∧
    moduleExportedFunctionName "products" = "useProductsActions" ∧
    (∀ col : String, capitalize col ≠ "FirestoreCollection" →
      "useFirestoreCollectionActions" ≠ moduleExportedFunctionName col) := by
  refine ⟨by decide, by decide, ?_⟩
  intro col h e
  apply h
  have e2 : "use" ++ "FirestoreCollection" ++ "Actions" = "use" ++ capitalize col ++ "Actions" :=
    Eq.trans (by rfl) e
  have h3 := congrArg String.data e2
  simp only [String.data_append] at h3
  have h4 := List.append_cancel_left (List.append_cancel_right h3)
  exact (String.ext h4).symm

/-- C10 witness: the mismatch instantiated at the collection `orders`:
the imported specifier is not the function the action module exports. -/
theorem c10_witness :
    capitalize "orders" ≠ "FirestoreCollection" ∧
    "useFirestoreCollectionActions" ≠ moduleExportedFunctionName "orders" :=
  ⟨by decide, c10_amended.2.2 "orders" (by decide)⟩
